import Mathlib

/-!
Shallow embedding of the synchronized-checkpoint subsystem of
src/src/checkpointsync.cpp (TrezarCoin).

Modelling conventions:
- `uint256` block hashes are modelled as `Nat`; the all-zero sentinel
  `ArithToUint256(arith_uint256(0))` is the literal `0`.
- `CBlockIndex` is an inductive chain node: `root` is a node whose
  `pprev` pointer is null, `cons` carries its parent node.  `nHeight`
  is `Int`, matching the C++ `int` field.
- The external collaborators (block index `mapBlockIndex`, the active
  chain `chainActive`, consensus parameters, the signature primitives,
  the serialization of `CUnsignedSyncCheckpoint` declared in the
  missing header `checkpointsync.h`, and the durable store
  `pblocktree`) are gathered in an `Env` record of abstract functions.
- The process-wide globals of the file form the `CheckpointState`
  record; every operation takes and returns it explicitly.
- `error(...)` returns `false`; a C++ deserialization exception is the
  `none` result of an `Option`-valued operation.
-/

/-- Block hashes (uint256); 0 is the all-zero "unset" sentinel. -/
abbrev Hash := Nat

/-- A `CBlockIndex` node: `root` has a null `pprev`, `cons` carries the
parent node inline (the pointer structure of the C++ block index). -/
inductive CBlockIndex : Type where
  | root (hash : Hash) (nHeight : Int)
  | cons (hash : Hash) (nHeight : Int) (pprev : CBlockIndex)
deriving DecidableEq, Repr

def CBlockIndex.getBlockHash : CBlockIndex → Hash
  | .root h _ => h
  | .cons h _ _ => h

def CBlockIndex.nHeight : CBlockIndex → Int
  | .root _ n => n
  | .cons _ n _ => n

def CBlockIndex.pprev : CBlockIndex → Option CBlockIndex
  | .root _ _ => none
  | .cons _ _ p => some p

/-- The deepest ancestor reachable from a node by following `pprev`. -/
def CBlockIndex.chainRoot : CBlockIndex → CBlockIndex
  | .root h n => .root h n
  | .cons _ _ p => p.chainRoot

/-- The message type `CSyncCheckpoint` (fields from the C++ class):
the checkpoint hash, the canonical payload bytes `vchMsg` and the
signature bytes `vchSig`. -/
structure CSyncCheckpoint where
  hashCheckpoint : Hash
  vchMsg : List Nat
  vchSig : List Nat
deriving DecidableEq, Repr

/-- `CSyncCheckpoint::SetNull()` result: the null message. -/
def CSyncCheckpoint.null : CSyncCheckpoint :=
  { hashCheckpoint := 0, vchMsg := [], vchSig := [] }

/-- The process-wide mutable globals of checkpointsync.cpp. -/
structure CheckpointState where
  hashSyncCheckpoint : Hash
  hashPendingCheckpoint : Hash
  hashInvalidCheckpoint : Hash
  checkpointMessage : CSyncCheckpoint
  checkpointMessagePending : CSyncCheckpoint
deriving DecidableEq, Repr

/-- External collaborators, read-only during one operation:
block lookup, active-chain lookup by height, consensus parameters,
signature verification against the master public key, payload
deserialization, and the durable-store write outcome. -/
structure Env where
  mapBlockIndex : Hash → Option CBlockIndex
  chainActive : Int → Option Hash
  hashGenesisBlock : Hash
  latestHardened : Hash
  checkpointDepth : Int
  verifySig : List Nat → List Nat → Bool
  parseMsg : List Nat → Option Hash
  writeOk : Hash → Bool

/-- `chainActive.Contains(pindex)`: the active chain holds exactly this
block at its height (pointer identity in C++, hash identity here since
the block index is keyed by hash). -/
def chainContains (env : Env) (pindex : CBlockIndex) : Bool :=
  env.chainActive pindex.nHeight == some pindex.getBlockHash

/-- The backward walk `while (pindex->nHeight > target) pindex = pindex->pprev`,
returning `none` when a null `pprev` is hit while still above `target`
(the "block index structure failure" path). -/
def traceToHeight (target : Int) : CBlockIndex → Option CBlockIndex
  | .root h n => if n > target then none else some (.root h n)
  | .cons h n p => if n > target then traceToHeight target p else some (.cons h n p)

/-- `ValidateSyncCheckpoint` (checkpointsync.cpp lines 81-118). -/
def ValidateSyncCheckpoint (env : Env) (s : CheckpointState) (hashCheckpoint : Hash) :
    Bool × CheckpointState :=
  match env.mapBlockIndex s.hashSyncCheckpoint with
  | none => (false, s)
  | some pindexSyncCheckpoint =>
    match env.mapBlockIndex hashCheckpoint with
    | none => (false, s)
    | some pindexCheckpointRecv =>
      if pindexCheckpointRecv.nHeight ≤ pindexSyncCheckpoint.nHeight then
        if chainContains env pindexCheckpointRecv then
          (false, s)
        else
          (false, { s with hashInvalidCheckpoint := hashCheckpoint })
      else
        match traceToHeight pindexSyncCheckpoint.nHeight pindexCheckpointRecv with
        | none => (false, s)
        | some pindex =>
          if pindex.getBlockHash = s.hashSyncCheckpoint then
            (true, s)
          else
            (false, { s with hashInvalidCheckpoint := hashCheckpoint })

/-- `WriteSyncCheckpoint` (lines 120-128): durable write first, then the
in-memory assignment; a failed write leaves the state untouched. -/
def WriteSyncCheckpoint (env : Env) (s : CheckpointState) (hashCheckpoint : Hash) :
    Bool × CheckpointState :=
  if env.writeOk hashCheckpoint then
    (true, { s with hashSyncCheckpoint := hashCheckpoint })
  else
    (false, s)

/-- `AcceptPendingSyncCheckpoint` (lines 130-161). -/
def AcceptPendingSyncCheckpoint (env : Env) (s : CheckpointState) :
    Bool × CheckpointState :=
  if s.hashPendingCheckpoint ≠ 0 ∧ (env.mapBlockIndex s.hashPendingCheckpoint).isSome then
    match ValidateSyncCheckpoint env s s.hashPendingCheckpoint with
    | (false, s1) =>
      (false, { s1 with hashPendingCheckpoint := 0,
                        checkpointMessagePending := CSyncCheckpoint.null })
    | (true, s1) =>
      match env.mapBlockIndex s.hashPendingCheckpoint with
      | none => (false, s1)
      | some pindex =>
        if chainContains env pindex then
          match WriteSyncCheckpoint env s1 s.hashPendingCheckpoint with
          | (false, s2) => (false, s2)
          | (true, s2) =>
            (true, { s2 with hashPendingCheckpoint := 0,
                             checkpointMessage := s2.checkpointMessagePending,
                             checkpointMessagePending := CSyncCheckpoint.null })
        else
          (false, s1)
  else
    (false, s)

/-- The loop body of `AutoSelectSyncCheckpoint` (lines 164-171):
`while (pindex->pprev && pindex->nHeight + depth > tipHeight) pindex = pindex->pprev`. -/
def autoSelectWalk (depth tipHeight : Int) : CBlockIndex → CBlockIndex
  | .root h n => .root h n
  | .cons h n p =>
    if n + depth > tipHeight then autoSelectWalk depth tipHeight p
    else .cons h n p

/-- `AutoSelectSyncCheckpoint` given the current tip of `chainActive`. -/
def AutoSelectSyncCheckpoint (env : Env) (tip : CBlockIndex) : Hash :=
  (autoSelectWalk env.checkpointDepth tip.nHeight tip).getBlockHash

/-- The two trailing height checks of `CheckSyncCheckpoint`
(lines 200-204), reached after the descendant check passes or does not
apply. -/
def checkSyncTail (env : Env) (s : CheckpointState) (hashBlock : Hash) (nHeight : Int)
    (pindexSync : CBlockIndex) : Bool × CheckpointState :=
  if nHeight = pindexSync.nHeight ∧ hashBlock ≠ s.hashSyncCheckpoint then
    (false, s)
  else if nHeight < pindexSync.nHeight ∧ env.mapBlockIndex hashBlock = none then
    (false, s)
  else
    (true, s)

/-- `CheckSyncCheckpoint` (lines 174-205). -/
def CheckSyncCheckpoint (env : Env) (s : CheckpointState) (hashBlock : Hash)
    (pindexPrev : CBlockIndex) : Bool × CheckpointState :=
  if s.hashSyncCheckpoint = 0 ∨ env.mapBlockIndex s.hashSyncCheckpoint = none then
    (true, (WriteSyncCheckpoint env s env.hashGenesisBlock).2)
  else
    match env.mapBlockIndex s.hashSyncCheckpoint with
    | none => (false, s)
    | some pindexSync =>
      if pindexPrev.nHeight + 1 > pindexSync.nHeight then
        match traceToHeight pindexSync.nHeight pindexPrev with
        | none => (false, s)
        | some pindex =>
          if chainContains env pindex then
            checkSyncTail env s hashBlock (pindexPrev.nHeight + 1) pindexSync
          else
            (false, s)
      else
        checkSyncTail env s hashBlock (pindexPrev.nHeight + 1) pindexSync

/-- `ResetSyncCheckpoint` (lines 208-225). -/
def ResetSyncCheckpoint (env : Env) (s : CheckpointState) : Bool × CheckpointState :=
  WriteSyncCheckpoint env
    (if env.mapBlockIndex env.latestHardened = none then
      { s with checkpointMessagePending := CSyncCheckpoint.null,
               hashPendingCheckpoint := env.latestHardened }
     else s)
    (match env.mapBlockIndex env.latestHardened with
     | some pindex =>
       if chainContains env pindex then env.latestHardened else env.hashGenesisBlock
     | none => env.hashGenesisBlock)

/-- `CSyncCheckpoint::CheckSignature` (lines 300-311): verify the
signature over the payload bytes, then deserialize the payload into the
object, overwriting `hashCheckpoint`.  `none` models a deserialization
exception.  The serialization of `CUnsignedSyncCheckpoint` lives in the
missing header; it is the abstract `env.parseMsg`. -/
def CSyncCheckpoint.CheckSignature (self : CSyncCheckpoint) (env : Env) :
    Option (Bool × CSyncCheckpoint) :=
  if env.verifySig self.vchMsg self.vchSig then
    match env.parseMsg self.vchMsg with
    | none => none
    | some h => some (true, { self with hashCheckpoint := h })
  else
    some (false, self)

/-- `CSyncCheckpoint::ProcessSyncCheckpoint` (lines 314-340): the result
carries the return value, the new global state, and the possibly
mutated message object. -/
def CSyncCheckpoint.ProcessSyncCheckpoint (self : CSyncCheckpoint) (env : Env)
    (s : CheckpointState) : Option (Bool × CheckpointState × CSyncCheckpoint) :=
  match self.CheckSignature env with
  | none => none
  | some (false, m1) => some (false, s, m1)
  | some (true, m1) =>
    if env.mapBlockIndex m1.hashCheckpoint = none then
      some (false, { s with hashPendingCheckpoint := m1.hashCheckpoint,
                            checkpointMessagePending := m1 }, m1)
    else
      match ValidateSyncCheckpoint env s m1.hashCheckpoint with
      | (false, s1) => some (false, s1, m1)
      | (true, s1) =>
        match WriteSyncCheckpoint env s1 m1.hashCheckpoint with
        | (false, s2) => some (false, s2, m1)
        | (true, s2) =>
          some (true, { s2 with checkpointMessage := m1,
                                hashPendingCheckpoint := 0,
                                checkpointMessagePending := CSyncCheckpoint.null }, m1)

/-- Well-formed ancestry: heights step down by one along `pprev` and the
rootmost block has height 0 (the genesis block). -/
def goodChain : CBlockIndex → Prop
  | .root _ n => n = 0
  | .cons _ n p => n = p.nHeight + 1 ∧ goodChain p

/-- Executable form of `goodChain`. -/
def goodChainB : CBlockIndex → Bool
  | .root _ n => n == 0
  | .cons _ n p => (n == p.nHeight + 1) && goodChainB p

instance (b : CBlockIndex) : Decidable (goodChain b) :=
  decidable_of_iff (goodChainB b = true)
    (by induction b with
        | root h n => simp [goodChain, goodChainB]
        | cons h n p ih => simp [goodChain, goodChainB, ih])

/-!
Concrete fixture used by witnesses and counterexamples: a canonical
chain g(100,h0) - b1(101,h1) - b2(102,h2) plus a fork block
f1(201,h1) whose parent is g but which is not on the active chain.
-/

def gBlock : CBlockIndex := .root 100 0

def b1Block : CBlockIndex := .cons 101 1 gBlock

def b2Block : CBlockIndex := .cons 102 2 b1Block

def f1Block : CBlockIndex := .cons 201 1 gBlock

def mapBI : Hash → Option CBlockIndex := fun h =>
  if h = 100 then some gBlock
  else if h = 101 then some b1Block
  else if h = 102 then some b2Block
  else if h = 201 then some f1Block
  else none

def chainAt : Int → Option Hash := fun n =>
  if n = 0 then some 100
  else if n = 1 then some 101
  else if n = 2 then some 102
  else none

def env0 : Env :=
  { mapBlockIndex := mapBI
    chainActive := chainAt
    hashGenesisBlock := 100
    latestHardened := 102
    checkpointDepth := 1
    verifySig := fun _ _ => true
    parseMsg := fun l => l.head?
    writeOk := fun _ => true }

def envNoWrite : Env := { env0 with writeOk := fun _ => false }

def envBadSig : Env := { env0 with verifySig := fun _ _ => false }

def envDepth0 : Env := { env0 with checkpointDepth := 0 }

def s100 : CheckpointState :=
  { hashSyncCheckpoint := 100
    hashPendingCheckpoint := 0
    hashInvalidCheckpoint := 0
    checkpointMessage := CSyncCheckpoint.null
    checkpointMessagePending := CSyncCheckpoint.null }

def s102 : CheckpointState := { s100 with hashSyncCheckpoint := 102 }

def sUnset : CheckpointState := { s100 with hashSyncCheckpoint := 0 }

def msg102 : CSyncCheckpoint := { hashCheckpoint := 0, vchMsg := [102], vchSig := [] }

def msg201 : CSyncCheckpoint := { hashCheckpoint := 0, vchMsg := [201], vchSig := [] }

def msg999 : CSyncCheckpoint := { hashCheckpoint := 0, vchMsg := [999], vchSig := [] }

def msg102p : CSyncCheckpoint := { hashCheckpoint := 102, vchMsg := [102], vchSig := [] }

def sAfter102 : CheckpointState :=
  { hashSyncCheckpoint := 102, hashPendingCheckpoint := 0, hashInvalidCheckpoint := 0,
    checkpointMessage := msg102p, checkpointMessagePending := CSyncCheckpoint.null }

def sPend102 : CheckpointState := { s100 with hashPendingCheckpoint := 102 }

def sPend201 : CheckpointState := { s100 with hashPendingCheckpoint := 201 }

def sA102P201 : CheckpointState :=
  { s100 with hashSyncCheckpoint := 102, hashPendingCheckpoint := 201 }
def msgMismatch : CSyncCheckpoint := { hashCheckpoint := 1, vchMsg := [2], vchSig := [] }
def msg201p : CSyncCheckpoint := { hashCheckpoint := 201, vchMsg := [201], vchSig := [] }

def sAfter201 : CheckpointState :=
  { hashSyncCheckpoint := 201, hashPendingCheckpoint := 0, hashInvalidCheckpoint := 0,
    checkpointMessage := msg201p, checkpointMessagePending := CSyncCheckpoint.null }

/-!
Helper lemmas shared by several claims.
-/

/-- `ValidateSyncCheckpoint` never touches the active checkpoint hash. -/
theorem validate_preserves_sync (env : Env) (s : CheckpointState) (h : Hash) :
    (ValidateSyncCheckpoint env s h).2.hashSyncCheckpoint = s.hashSyncCheckpoint := by
  unfold ValidateSyncCheckpoint
  split
  · rfl
  split
  · rfl
  split
  · split <;> rfl
  · split
    · rfl
    · split <;> rfl

/-- A successful `ValidateSyncCheckpoint` changes no state at all. -/
theorem validate_true_state (env : Env) (s s1 : CheckpointState) (h : Hash)
    (hv : ValidateSyncCheckpoint env s h = (true, s1)) : s1 = s := by
  unfold ValidateSyncCheckpoint at hv
  split at hv
  · simp_all
  split at hv
  · simp_all
  split at hv
  · split at hv <;> simp_all
  · split at hv
    · simp_all
    · split at hv <;> simp_all

/-- C1: with both the active checkpoint block and a strictly higher
candidate block in the index, `ValidateSyncCheckpoint` walks the
candidate parent links down to the active height; it returns true
exactly when the ancestor it reaches carries the active checkpoint
hash; a differing ancestor records the candidate hash in
`hashInvalidCheckpoint` and fails, leaving the active checkpoint
unchanged; a missing parent link fails without touching the
invalid-checkpoint marker. -/
theorem c1_validate_descendant (env : Env) (s : CheckpointState) (hashCheckpoint : Hash)
    (syncIdx candIdx : CBlockIndex)
    (hsync : env.mapBlockIndex s.hashSyncCheckpoint = some syncIdx)
    (hcand : env.mapBlockIndex hashCheckpoint = some candIdx)
    (hgt : syncIdx.nHeight < candIdx.nHeight) :
    ((ValidateSyncCheckpoint env s hashCheckpoint).1 = true ↔
       (∃ b, traceToHeight syncIdx.nHeight candIdx = some b ∧
          b.getBlockHash = s.hashSyncCheckpoint)) ∧
    (∀ b, traceToHeight syncIdx.nHeight candIdx = some b →
       b.getBlockHash = s.hashSyncCheckpoint →
       ValidateSyncCheckpoint env s hashCheckpoint = (true, s)) ∧
    (∀ b, traceToHeight syncIdx.nHeight candIdx = some b →
       b.getBlockHash ≠ s.hashSyncCheckpoint →
       ValidateSyncCheckpoint env s hashCheckpoint =
         (false, { s with hashInvalidCheckpoint := hashCheckpoint })) ∧
    (traceToHeight syncIdx.nHeight candIdx = none →
       ValidateSyncCheckpoint env s hashCheckpoint = (false, s)) ∧
    (ValidateSyncCheckpoint env s hashCheckpoint).2.hashSyncCheckpoint =
      s.hashSyncCheckpoint := by
  have hnle : ¬ (candIdx.nHeight ≤ syncIdx.nHeight) := not_le.mpr hgt
  refine ⟨?_, ?_, ?_, ?_, validate_preserves_sync env s hashCheckpoint⟩ <;>
    unfold ValidateSyncCheckpoint <;>
    rw [hsync, hcand] <;>
    simp only [hnle, if_false]
  · cases htr : traceToHeight syncIdx.nHeight candIdx with
    | none => simp [htr]
    | some b =>
      by_cases hb : b.getBlockHash = s.hashSyncCheckpoint <;> simp [htr, hb]
  · intro b htr hb
    simp [htr, hb]
  · intro b htr hb
    simp [htr, hb]
  · intro htr
    simp [htr]

/-- C1 witness: candidate b2 (height 2) above active genesis (height 0)
is accepted since tracing back reaches the genesis hash. -/
theorem c1_validate_descendant_witness :
    ValidateSyncCheckpoint env0 s100 102 = (true, s100) :=
  (c1_validate_descendant env0 s100 102 gBlock b2Block rfl rfl (by decide)).2.1
    gBlock (by decide) (by decide)

/-- C2: a candidate at height at most the active checkpoint height whose
block is on the canonical chain is ignored with no state change; one
whose block is in the index but off the canonical chain records the
candidate hash in the invalid-checkpoint marker and fails. -/
theorem c2_validate_older (env : Env) (s : CheckpointState) (hashCheckpoint : Hash)
    (syncIdx candIdx : CBlockIndex)
    (hsync : env.mapBlockIndex s.hashSyncCheckpoint = some syncIdx)
    (hcand : env.mapBlockIndex hashCheckpoint = some candIdx)
    (hle : candIdx.nHeight ≤ syncIdx.nHeight) :
    (chainContains env candIdx = true →
       ValidateSyncCheckpoint env s hashCheckpoint = (false, s)) ∧
    (chainContains env candIdx = false →
       ValidateSyncCheckpoint env s hashCheckpoint =
         (false, { s with hashInvalidCheckpoint := hashCheckpoint })) := by
  constructor <;> intro hc <;>
    unfold ValidateSyncCheckpoint <;>
    rw [hsync, hcand] <;>
    simp [hle, hc]

/-- C2 witness: with the active checkpoint at b2 (height 2), the
on-chain block b1 (height 1) is ignored without state change and the
off-chain fork block f1 (height 1) sets the conflict marker. -/
theorem c2_validate_older_witness :
    ValidateSyncCheckpoint env0 s102 101 = (false, s102) ∧
    ValidateSyncCheckpoint env0 s102 201 =
      (false, { s102 with hashInvalidCheckpoint := 201 }) :=
  ⟨(c2_validate_older env0 s102 101 b2Block b1Block rfl rfl (by decide)).1 (by decide),
   (c2_validate_older env0 s102 201 b2Block f1Block rfl rfl (by decide)).2 (by decide)⟩

/-- C3: `CheckSyncCheckpoint` on a new block at height parent + 1:
with an unset or locally unknown active checkpoint it resets the
checkpoint to genesis (when the durable write succeeds) and accepts;
above the checkpoint height it accepts exactly when the parent ancestor
traced to the checkpoint height exists and is on the canonical chain;
at the checkpoint height it accepts exactly the checkpoint hash itself;
below it accepts exactly blocks already known to the index. -/
theorem c3_checkSyncCheckpoint (env : Env) (s : CheckpointState) (hashBlock : Hash)
    (pindexPrev : CBlockIndex) :
    ((s.hashSyncCheckpoint = 0 ∨ env.mapBlockIndex s.hashSyncCheckpoint = none) →
       env.writeOk env.hashGenesisBlock = true →
       CheckSyncCheckpoint env s hashBlock pindexPrev =
         (true, { s with hashSyncCheckpoint := env.hashGenesisBlock })) ∧
    (∀ pindexSync, s.hashSyncCheckpoint ≠ 0 →
       env.mapBlockIndex s.hashSyncCheckpoint = some pindexSync →
       (pindexPrev.nHeight + 1 > pindexSync.nHeight →
         ((CheckSyncCheckpoint env s hashBlock pindexPrev).1 = true ↔
            ∃ b, traceToHeight pindexSync.nHeight pindexPrev = some b ∧
              chainContains env b = true)) ∧
       (pindexPrev.nHeight + 1 = pindexSync.nHeight →
         ((CheckSyncCheckpoint env s hashBlock pindexPrev).1 = true ↔
            hashBlock = s.hashSyncCheckpoint)) ∧
       (pindexPrev.nHeight + 1 < pindexSync.nHeight →
         ((CheckSyncCheckpoint env s hashBlock pindexPrev).1 = true ↔
            (env.mapBlockIndex hashBlock).isSome = true))) := by
  constructor
  · intro hreset hw
    unfold CheckSyncCheckpoint WriteSyncCheckpoint
    simp [hreset, hw]
  · intro pindexSync hne hmap
    refine ⟨?_, ?_, ?_⟩
    · intro hgt
      have hne2 : pindexPrev.nHeight + 1 ≠ pindexSync.nHeight := by omega
      have hnlt : ¬ (pindexPrev.nHeight + 1 < pindexSync.nHeight) := by omega
      unfold CheckSyncCheckpoint
      rw [hmap]
      cases htr : traceToHeight pindexSync.nHeight pindexPrev with
      | none => simp [hne, hgt, htr, checkSyncTail, hne2, hnlt]
      | some b =>
        by_cases hc : chainContains env b <;>
          simp [hne, hgt, htr, hc, checkSyncTail, hne2, hnlt]
    · intro heq
      have hngt : ¬ (pindexPrev.nHeight + 1 > pindexSync.nHeight) := by omega
      have hnlt : ¬ (pindexPrev.nHeight + 1 < pindexSync.nHeight) := by omega
      unfold CheckSyncCheckpoint
      rw [hmap]
      by_cases hb : hashBlock = s.hashSyncCheckpoint <;>
        simp [hne, checkSyncTail, heq, hb, hngt, hnlt]
    · intro hlt
      have hngt : ¬ (pindexPrev.nHeight + 1 > pindexSync.nHeight) := by omega
      have hne2 : pindexPrev.nHeight + 1 ≠ pindexSync.nHeight := by omega
      unfold CheckSyncCheckpoint
      rw [hmap]
      cases hmb : env.mapBlockIndex hashBlock with
      | none => simp [hne, checkSyncTail, hlt, hmb, hngt, hne2]
      | some c => simp [hne, checkSyncTail, hlt, hmb, hngt, hne2]

/-- C3 witness: the four branches at concrete inputs on the fixture
chain: unset checkpoint resets to genesis and accepts; a block at
height 2 above the genesis checkpoint whose parent traces back to
genesis is accepted; at the checkpoint height exactly the checkpoint
hash is accepted; below the checkpoint height a known block is
accepted. -/
theorem c3_checkSyncCheckpoint_witness :
    CheckSyncCheckpoint env0 sUnset 101 gBlock =
      (true, { sUnset with hashSyncCheckpoint := 100 }) ∧
    ((CheckSyncCheckpoint env0 s100 102 b1Block).1 = true ↔
       ∃ b, traceToHeight 0 b1Block = some b ∧ chainContains env0 b = true) ∧
    ((CheckSyncCheckpoint env0 s102 102 b1Block).1 = true ↔ 102 = s102.hashSyncCheckpoint) ∧
    ((CheckSyncCheckpoint env0 s102 101 gBlock).1 = true ↔
       (env0.mapBlockIndex 101).isSome = true) :=
  ⟨(c3_checkSyncCheckpoint env0 sUnset 101 gBlock).1 (Or.inl rfl) rfl,
   ((c3_checkSyncCheckpoint env0 s100 102 b1Block).2 gBlock (by decide) rfl).1 (by decide),
   ((c3_checkSyncCheckpoint env0 s102 102 b1Block).2 b2Block (by decide) rfl).2.1 (by decide),
   ((c3_checkSyncCheckpoint env0 s102 101 gBlock).2 b2Block (by decide) rfl).2.2 (by decide)⟩

/-- C4: a message failing signature verification makes
`ProcessSyncCheckpoint` return false with every component of the
checkpoint state unchanged (the whole state record is returned as
it was). -/
theorem c4_badsig_frame (env : Env) (s : CheckpointState) (m : CSyncCheckpoint)
    (hsig : env.verifySig m.vchMsg m.vchSig = false) :
    m.ProcessSyncCheckpoint env s = some (false, s, m) := by
  unfold CSyncCheckpoint.ProcessSyncCheckpoint CSyncCheckpoint.CheckSignature
  simp [hsig]

/-- C4 witness: under the failing-signature environment the state
after processing is exactly the initial state. -/
theorem c4_badsig_frame_witness :
    msg102.ProcessSyncCheckpoint envBadSig s100 = some (false, s100, msg102) :=
  c4_badsig_frame envBadSig s100 msg102 rfl

/-- A failed durable write leaves the write operation at `(false, s)`. -/
theorem write_false_state (env : Env) (s s2 : CheckpointState) (h : Hash)
    (hw : WriteSyncCheckpoint env s h = (false, s2)) :
    s2 = s ∧ env.writeOk h = false := by
  unfold WriteSyncCheckpoint at hw
  by_cases hb : env.writeOk h
  · simp [hb] at hw
  · simp [hb] at hw
    exact ⟨hw.symm, by simpa using hb⟩

/-- A successful durable write commits exactly the new hash. -/
theorem write_true_state (env : Env) (s s2 : CheckpointState) (h : Hash)
    (hw : WriteSyncCheckpoint env s h = (true, s2)) :
    s2 = { s with hashSyncCheckpoint := h } ∧ env.writeOk h = true := by
  unfold WriteSyncCheckpoint at hw
  by_cases hb : env.writeOk h
  · simp [hb] at hw
    exact ⟨hw.symm, hb⟩
  · simp [hb] at hw

/-- The write either leaves the active hash alone or commits a hash the
durable store accepted. -/
theorem writeSync_change (env : Env) (s : CheckpointState) (h : Hash) :
    (WriteSyncCheckpoint env s h).2.hashSyncCheckpoint = s.hashSyncCheckpoint ∨
    ((WriteSyncCheckpoint env s h).2.hashSyncCheckpoint = h ∧ env.writeOk h = true) := by
  unfold WriteSyncCheckpoint
  by_cases hw : env.writeOk h <;> simp [hw]

/-- `checkSyncTail` never changes the state. -/
theorem checkSyncTail_state (env : Env) (s : CheckpointState) (hashBlock : Hash)
    (nHeight : Int) (pindexSync : CBlockIndex) :
    (checkSyncTail env s hashBlock nHeight pindexSync).2 = s := by
  unfold checkSyncTail
  split
  · rfl
  split <;> rfl

/-- `ProcessSyncCheckpoint` moves the active hash only to a hash whose
durable write succeeded. -/
theorem process_advances_only_written (env : Env) (s : CheckpointState)
    (m : CSyncCheckpoint) (r : Bool × CheckpointState × CSyncCheckpoint)
    (hr : m.ProcessSyncCheckpoint env s = some r)
    (hch : r.2.1.hashSyncCheckpoint ≠ s.hashSyncCheckpoint) :
    env.writeOk r.2.1.hashSyncCheckpoint = true := by
  unfold CSyncCheckpoint.ProcessSyncCheckpoint at hr
  split at hr
  · cases hr
  · cases hr
    simp at hch
  · rename_i m1 _
    split at hr
    · cases hr
      simp at hch
    · split at hr
      · rename_i s1 heq
        cases hr
        have hp := validate_preserves_sync env s m1.hashCheckpoint
        rw [heq] at hp
        exact absurd hp hch
      · rename_i s1 heq
        have hs1 : s1 = s := validate_true_state env s s1 m1.hashCheckpoint heq
        split at hr
        · rename_i s2 hw
          cases hr
          obtain ⟨h1, _⟩ := write_false_state env s1 s2 m1.hashCheckpoint hw
          subst h1 hs1
          simp at hch
        · rename_i s2 hw
          cases hr
          obtain ⟨h1, h2⟩ := write_true_state env s1 s2 m1.hashCheckpoint hw
          subst h1
          simpa using h2

/-- `AcceptPendingSyncCheckpoint` either leaves the active hash alone or
commits a hash whose durable write succeeded. -/
theorem accept_sync_change (env : Env) (s : CheckpointState) :
    (AcceptPendingSyncCheckpoint env s).2.hashSyncCheckpoint = s.hashSyncCheckpoint ∨
    env.writeOk (AcceptPendingSyncCheckpoint env s).2.hashSyncCheckpoint = true := by
  unfold AcceptPendingSyncCheckpoint
  split
  · split
    · rename_i s1 heq
      left
      have hp := validate_preserves_sync env s s.hashPendingCheckpoint
      rw [heq] at hp
      simpa using hp
    · rename_i s1 heq
      have hs1 : s1 = s := validate_true_state env s s1 s.hashPendingCheckpoint heq
      split
      · left
        simp [hs1]
      · split
        · split
          · rename_i s2 hw
            left
            obtain ⟨h1, _⟩ := write_false_state env s1 s2 s.hashPendingCheckpoint hw
            simp [h1, hs1]
          · rename_i s2 hw
            right
            obtain ⟨h1, h2⟩ := write_true_state env s1 s2 s.hashPendingCheckpoint hw
            simp [h1, h2]
        · left
          simp [hs1]
  · left
    rfl

/-- `CheckSyncCheckpoint` either leaves the active hash alone or commits
the genesis hash after a successful durable write. -/
theorem checkSync_sync_change (env : Env) (s : CheckpointState) (hashBlock : Hash)
    (prev : CBlockIndex) :
    (CheckSyncCheckpoint env s hashBlock prev).2.hashSyncCheckpoint = s.hashSyncCheckpoint ∨
    env.writeOk (CheckSyncCheckpoint env s hashBlock prev).2.hashSyncCheckpoint = true := by
  unfold CheckSyncCheckpoint
  split
  · rcases writeSync_change env s env.hashGenesisBlock with h | ⟨h1, h2⟩
    · left
      simpa using h
    · right
      simpa [h1] using h2
  · split
    · left
      rfl
    · split
      · split
        · left
          rfl
        · split
          · left
            rw [checkSyncTail_state]
          · left
            rfl
      · left
        rw [checkSyncTail_state]

/-- `ResetSyncCheckpoint` either leaves the active hash alone or commits
a hash whose durable write succeeded. -/
theorem reset_sync_change (env : Env) (s : CheckpointState) :
    (ResetSyncCheckpoint env s).2.hashSyncCheckpoint = s.hashSyncCheckpoint ∨
    env.writeOk (ResetSyncCheckpoint env s).2.hashSyncCheckpoint = true := by
  unfold ResetSyncCheckpoint
  rcases writeSync_change env
      (if env.mapBlockIndex env.latestHardened = none then
        { s with checkpointMessagePending := CSyncCheckpoint.null,
                 hashPendingCheckpoint := env.latestHardened }
       else s)
      (match env.mapBlockIndex env.latestHardened with
       | some pindex =>
         if chainContains env pindex then env.latestHardened else env.hashGenesisBlock
       | none => env.hashGenesisBlock) with h | ⟨h1, h2⟩
  · left
    rw [h]
    split <;> rfl
  · right
    rw [h1]
    exact h2

/-- C5: a failed durable write makes `WriteSyncCheckpoint` fail with the
in-memory active hash unchanged, and every operation that transitions
the active checkpoint (`ProcessSyncCheckpoint`,
`AcceptPendingSyncCheckpoint`, `CheckSyncCheckpoint`,
`ResetSyncCheckpoint`) moves the in-memory active hash only to a value
whose durable write succeeded (write-then-commit ordering). -/
theorem c5_write_then_commit :
    (∀ (env : Env) (s : CheckpointState) (h : Hash), env.writeOk h = false →
       WriteSyncCheckpoint env s h = (false, s)) ∧
    (∀ (env : Env) (s : CheckpointState) (m : CSyncCheckpoint)
       (r : Bool × CheckpointState × CSyncCheckpoint),
       m.ProcessSyncCheckpoint env s = some r →
       r.2.1.hashSyncCheckpoint ≠ s.hashSyncCheckpoint →
       env.writeOk r.2.1.hashSyncCheckpoint = true) ∧
    (∀ (env : Env) (s : CheckpointState),
       (AcceptPendingSyncCheckpoint env s).2.hashSyncCheckpoint ≠ s.hashSyncCheckpoint →
       env.writeOk (AcceptPendingSyncCheckpoint env s).2.hashSyncCheckpoint = true) ∧
    (∀ (env : Env) (s : CheckpointState) (hashBlock : Hash) (prev : CBlockIndex),
       (CheckSyncCheckpoint env s hashBlock prev).2.hashSyncCheckpoint ≠
         s.hashSyncCheckpoint →
       env.writeOk (CheckSyncCheckpoint env s hashBlock prev).2.hashSyncCheckpoint = true) ∧
    (∀ (env : Env) (s : CheckpointState),
       (ResetSyncCheckpoint env s).2.hashSyncCheckpoint ≠ s.hashSyncCheckpoint →
       env.writeOk (ResetSyncCheckpoint env s).2.hashSyncCheckpoint = true) := by
  refine ⟨?_, process_advances_only_written, ?_, ?_, ?_⟩
  · intro env s h hw
    unfold WriteSyncCheckpoint
    simp [hw]
  · intro env s hch
    rcases accept_sync_change env s with h | h
    · exact absurd h hch
    · exact h
  · intro env s hashBlock prev hch
    rcases checkSync_sync_change env s hashBlock prev with h | h
    · exact absurd h hch
    · exact h
  · intro env s hch
    rcases reset_sync_change env s with h | h
    · exact absurd h hch
    · exact h

/-- C5 witness: a failing durable store leaves the active hash at its
old value, and each transition operation that did move the active hash
did so to a hash the durable store accepted. -/
theorem c5_write_then_commit_witness :
    envNoWrite.writeOk 102 = false ∧
    WriteSyncCheckpoint envNoWrite s100 102 = (false, s100) ∧
    env0.writeOk (true, sAfter102, msg102p).2.1.hashSyncCheckpoint = true ∧
    env0.writeOk (AcceptPendingSyncCheckpoint env0 sPend102).2.hashSyncCheckpoint = true ∧
    env0.writeOk (CheckSyncCheckpoint env0 sUnset 101 gBlock).2.hashSyncCheckpoint = true ∧
    env0.writeOk (ResetSyncCheckpoint env0 s100).2.hashSyncCheckpoint = true :=
  ⟨rfl,
   c5_write_then_commit.1 envNoWrite s100 102 rfl,
   c5_write_then_commit.2.1 env0 s100 msg102 (true, sAfter102, msg102p)
     (by decide) (by decide),
   c5_write_then_commit.2.2.1 env0 sPend102 (by decide),
   c5_write_then_commit.2.2.2.1 env0 sUnset 101 gBlock (by decide),
   c5_write_then_commit.2.2.2.2 env0 s100 (by decide)⟩

/-- C6 counterexample: with pending fork block f1 present in the index,
re-validation (`ValidateSyncCheckpoint`) succeeds, yet
`AcceptPendingSyncCheckpoint` neither promotes the pending hash to
active nor clears the pending slot, because f1 is off the canonical
chain: the claim that validation success promotes, and that any
non-promotion clears the pending entry, is false on the code. -/
theorem c6_counterexample :
    (env0.mapBlockIndex sPend201.hashPendingCheckpoint).isSome = true ∧
    ValidateSyncCheckpoint env0 sPend201 sPend201.hashPendingCheckpoint =
      (true, sPend201) ∧
    AcceptPendingSyncCheckpoint env0 sPend201 = (false, sPend201) := by decide

/-- C6 amended: a signature-valid message naming an unknown block is
stored in the pending slot with the active checkpoint untouched;
`AcceptPendingSyncCheckpoint`, with the pending block present, clears
the pending entry when `ValidateSyncCheckpoint` fails, promotes
pending to active and clears the pending slot when validation, the
canonical-chain containment check and the durable write all succeed,
and when validation succeeds but the containment check fails it
returns false leaving the pending entry set and the state unchanged. -/
theorem c6_pending_lifecycle :
    (∀ (env : Env) (s : CheckpointState) (m : CSyncCheckpoint) (h : Hash),
       env.verifySig m.vchMsg m.vchSig = true →
       env.parseMsg m.vchMsg = some h →
       env.mapBlockIndex h = none →
       m.ProcessSyncCheckpoint env s =
         some (false,
           { s with hashPendingCheckpoint := h,
                    checkpointMessagePending := { m with hashCheckpoint := h } },
           { m with hashCheckpoint := h })) ∧
    (∀ (env : Env) (s s1 : CheckpointState),
       s.hashPendingCheckpoint ≠ 0 →
       (env.mapBlockIndex s.hashPendingCheckpoint).isSome = true →
       ValidateSyncCheckpoint env s s.hashPendingCheckpoint = (false, s1) →
       AcceptPendingSyncCheckpoint env s =
         (false, { s1 with hashPendingCheckpoint := 0,
                           checkpointMessagePending := CSyncCheckpoint.null })) ∧
    (∀ (env : Env) (s : CheckpointState) (ci : CBlockIndex),
       s.hashPendingCheckpoint ≠ 0 →
       env.mapBlockIndex s.hashPendingCheckpoint = some ci →
       ValidateSyncCheckpoint env s s.hashPendingCheckpoint = (true, s) →
       chainContains env ci = true →
       env.writeOk s.hashPendingCheckpoint = true →
       AcceptPendingSyncCheckpoint env s =
         (true, { s with hashSyncCheckpoint := s.hashPendingCheckpoint,
                         hashPendingCheckpoint := 0,
                         checkpointMessage := s.checkpointMessagePending,
                         checkpointMessagePending := CSyncCheckpoint.null })) ∧
    (∀ (env : Env) (s : CheckpointState) (ci : CBlockIndex),
       s.hashPendingCheckpoint ≠ 0 →
       env.mapBlockIndex s.hashPendingCheckpoint = some ci →
       ValidateSyncCheckpoint env s s.hashPendingCheckpoint = (true, s) →
       chainContains env ci = false →
       AcceptPendingSyncCheckpoint env s = (false, s)) := by
  refine ⟨?_, ?_, ?_, ?_⟩
  · intro env s m h hsig hparse hmb
    unfold CSyncCheckpoint.ProcessSyncCheckpoint CSyncCheckpoint.CheckSignature
    simp [hsig, hparse, hmb]
  · intro env s s1 hpend hsome hval
    unfold AcceptPendingSyncCheckpoint
    simp [hpend, hsome, hval]
  · intro env s ci hpend hmap hval hc hw
    unfold AcceptPendingSyncCheckpoint
    simp [hpend, hmap, hval, hc, WriteSyncCheckpoint, hw]
  · intro env s ci hpend hmap hval hc
    unfold AcceptPendingSyncCheckpoint
    simp [hpend, hmap, hval, hc]

/-- C6 witness: the four amended behaviours at concrete inputs: an
unknown block 999 goes pending; a failing re-validation clears the
pending entry; the on-chain pending block 102 is promoted and the slot
cleared; the off-chain pending fork block 201 is kept pending. -/
theorem c6_pending_lifecycle_witness :
    msg999.ProcessSyncCheckpoint env0 s100 =
      some (false,
        { s100 with hashPendingCheckpoint := 999,
                    checkpointMessagePending := { msg999 with hashCheckpoint := 999 } },
        { msg999 with hashCheckpoint := 999 }) ∧
    AcceptPendingSyncCheckpoint env0 sA102P201 =
      (false, { sA102P201 with hashInvalidCheckpoint := 201,
                               hashPendingCheckpoint := 0,
                               checkpointMessagePending := CSyncCheckpoint.null }) ∧
    AcceptPendingSyncCheckpoint env0 sPend102 =
      (true, { sPend102 with hashSyncCheckpoint := 102,
                             hashPendingCheckpoint := 0,
                             checkpointMessage := sPend102.checkpointMessagePending,
                             checkpointMessagePending := CSyncCheckpoint.null }) ∧
    AcceptPendingSyncCheckpoint env0 sPend201 = (false, sPend201) :=
  ⟨c6_pending_lifecycle.1 env0 s100 msg999 999 rfl rfl rfl,
   c6_pending_lifecycle.2.1 env0 sA102P201
     { sA102P201 with hashInvalidCheckpoint := 201 } (by decide) (by decide) (by decide),
   c6_pending_lifecycle.2.2.1 env0 sPend102 b2Block (by decide) (by decide)
     (by decide) (by decide) (by decide),
   c6_pending_lifecycle.2.2.2 env0 sPend201 f1Block (by decide) (by decide)
     (by decide) (by decide)⟩

/-- C7 counterexample: a message whose carried `hashCheckpoint` field
(1) differs from the hash its payload deserializes to (2) still passes
`CheckSignature` when the signature verifies; instead of failing, the
call reports success and overwrites the field with the payload value,
so the message does influence subsequent state. -/
theorem c7_counterexample :
    msgMismatch.hashCheckpoint = 1 ∧
    env0.parseMsg msgMismatch.vchMsg = some 2 ∧
    env0.verifySig msgMismatch.vchMsg msgMismatch.vchSig = true ∧
    msgMismatch.CheckSignature env0 =
      some (true, { msgMismatch with hashCheckpoint := 2 }) := by decide

/-- C7 amended: trust rests on signature verification over the payload
bytes alone; `CheckSignature` performs no equality check between the
carried `hashCheckpoint` field and the payload: on success it
overwrites the field with the hash deserialized from the payload,
whatever value the field held before, so all later processing uses the
payload hash. -/
theorem c7_checksignature_payload (env : Env) (x h : Hash) (vchMsg vchSig : List Nat)
    (hsig : env.verifySig vchMsg vchSig = true)
    (hparse : env.parseMsg vchMsg = some h) :
    CSyncCheckpoint.CheckSignature
        { hashCheckpoint := x, vchMsg := vchMsg, vchSig := vchSig } env =
      some (true, { hashCheckpoint := h, vchMsg := vchMsg, vchSig := vchSig }) := by
  unfold CSyncCheckpoint.CheckSignature
  simp [hsig, hparse]

/-- C7 witness: the amended behaviour at the concrete mismatched
message. -/
theorem c7_checksignature_payload_witness :
    CSyncCheckpoint.CheckSignature
        { hashCheckpoint := 1, vchMsg := [2], vchSig := [] } env0 =
      some (true, { hashCheckpoint := 2, vchMsg := [2], vchSig := [] }) :=
  c7_checksignature_payload env0 1 2 [2] [] rfl rfl

/-- Under `goodChain` every height is non-negative. -/
theorem goodChain_nonneg (b : CBlockIndex) (hg : goodChain b) : 0 ≤ b.nHeight := by
  induction b with
  | root h n =>
    simp only [goodChain] at hg
    simp [CBlockIndex.nHeight, hg]
  | cons h n p ih =>
    simp only [goodChain] at hg
    have := ih hg.2
    simp only [CBlockIndex.nHeight] at *
    omega

/-- Under `goodChain` the rootmost ancestor has height 0. -/
theorem goodChain_chainRoot_height (b : CBlockIndex) (hg : goodChain b) :
    b.chainRoot.nHeight = 0 := by
  induction b with
  | root h n =>
    simp only [goodChain] at hg
    simp [CBlockIndex.chainRoot, CBlockIndex.nHeight, hg]
  | cons h n p ih =>
    simp only [goodChain] at hg
    simpa [CBlockIndex.chainRoot] using ih hg.2

/-- The auto-select walk lands exactly at `tipHeight - depth`, clipped
at the genesis height 0, whenever it starts at or above that target. -/
theorem autoSelectWalk_height (d tipHeight : Int) (b : CBlockIndex)
    (hg : goodChain b) (hub : tipHeight - d ≤ b.nHeight) :
    (autoSelectWalk d tipHeight b).nHeight = max (tipHeight - d) 0 := by
  induction b with
  | root h n =>
    simp only [goodChain] at hg
    simp only [autoSelectWalk, CBlockIndex.nHeight] at *
    omega
  | cons h n p ih =>
    simp only [goodChain] at hg
    simp only [CBlockIndex.nHeight] at hub
    have hnn : 0 ≤ p.nHeight := goodChain_nonneg p hg.2
    by_cases hcond : n + d > tipHeight
    · have hp : tipHeight - d ≤ p.nHeight := by omega
      simp only [autoSelectWalk, hcond, if_true]
      exact ih hg.2 hp
    · simp only [autoSelectWalk, hcond, if_false, CBlockIndex.nHeight]
      omega

/-- With depth 0 the walk starting at the tip stays at the tip. -/
theorem autoSelectWalk_zero (b : CBlockIndex) :
    autoSelectWalk 0 b.nHeight b = b := by
  cases b with
  | root h n => rfl
  | cons h n p => simp [autoSelectWalk, CBlockIndex.nHeight]

/-- When the chain is shorter than the depth the walk reaches the
rootmost block. -/
theorem autoSelectWalk_short (d tipHeight : Int) (b : CBlockIndex)
    (hg : goodChain b) (hlt : tipHeight < d) :
    autoSelectWalk d tipHeight b = b.chainRoot := by
  induction b with
  | root h n => rfl
  | cons h n p ih =>
    simp only [goodChain] at hg
    have hnn : 0 ≤ p.nHeight := goodChain_nonneg p hg.2
    have hcond : n + d > tipHeight := by omega
    simp only [autoSelectWalk, hcond, if_true, CBlockIndex.chainRoot]
    exact ih hg.2

/-- C8: with a well-formed chain and non-negative configured depth,
`AutoSelectSyncCheckpoint` at depth 0 returns the tip hash; at any
depth it returns the hash of the walk result, whose height is exactly
`tip.nHeight - depth` clipped at 0; when the chain is shorter than the
depth the walk ends at the genesis (rootmost, height 0) block.  The
walk is a total structural recursion, so it always terminates. -/
theorem c8_autoselect (env : Env) (tip : CBlockIndex)
    (hg : goodChain tip) (hd : 0 ≤ env.checkpointDepth) :
    (env.checkpointDepth = 0 → AutoSelectSyncCheckpoint env tip = tip.getBlockHash) ∧
    AutoSelectSyncCheckpoint env tip =
      (autoSelectWalk env.checkpointDepth tip.nHeight tip).getBlockHash ∧
    (autoSelectWalk env.checkpointDepth tip.nHeight tip).nHeight =
      max (tip.nHeight - env.checkpointDepth) 0 ∧
    (tip.nHeight < env.checkpointDepth →
      autoSelectWalk env.checkpointDepth tip.nHeight tip = tip.chainRoot ∧
      tip.chainRoot.nHeight = 0) := by
  refine ⟨?_, rfl, ?_, ?_⟩
  · intro h0
    unfold AutoSelectSyncCheckpoint
    rw [h0, autoSelectWalk_zero]
  · exact autoSelectWalk_height _ _ _ hg (by have := goodChain_nonneg tip hg; omega)
  · intro hlt
    exact ⟨autoSelectWalk_short _ _ _ hg hlt, goodChain_chainRoot_height tip hg⟩

/-- C8 witness: on the fixture chain with tip b2 (height 2), depth 0
selects the tip and depth 1 selects the height-1 block. -/
theorem c8_autoselect_witness :
    AutoSelectSyncCheckpoint envDepth0 b2Block = b2Block.getBlockHash ∧
    (autoSelectWalk env0.checkpointDepth b2Block.nHeight b2Block).nHeight =
      max (b2Block.nHeight - env0.checkpointDepth) 0 ∧
    AutoSelectSyncCheckpoint env0 b2Block = 101 :=
  ⟨(c8_autoselect envDepth0 b2Block (by decide) (by decide)).1 rfl,
   (c8_autoselect env0 b2Block (by decide) (by decide)).2.2.1,
   by decide⟩

/-- C9 counterexample: the first processing of the valid message naming
fork block 201 succeeds and makes it the active checkpoint, but
processing the same message again sets the invalid-checkpoint marker
(block 201 is in the index but off the canonical chain), so the state
after two runs differs from the state after one. -/
theorem c9_counterexample :
    msg201.ProcessSyncCheckpoint env0 s100 = some (true, sAfter201, msg201p) ∧
    msg201p.ProcessSyncCheckpoint env0 sAfter201 =
      some (false, { sAfter201 with hashInvalidCheckpoint := 201 }, msg201p) ∧
    ({ sAfter201 with hashInvalidCheckpoint := 201 } : CheckpointState) ≠ sAfter201 := by
  decide

/-- C9 amended: after a first successful processing of a valid message,
reprocessing it is a no-op (returns false, identical state) exactly
when the checkpoint block lies on the canonical chain; when the block
is off the canonical chain the second run leaves the active and
pending components unchanged but sets the invalid-checkpoint marker to
the checkpoint hash. -/
theorem c9_reprocess (env : Env) (s : CheckpointState) (m : CSyncCheckpoint)
    (h : Hash) (ci : CBlockIndex)
    (hsig : env.verifySig m.vchMsg m.vchSig = true)
    (hparse : env.parseMsg m.vchMsg = some h)
    (hmap : env.mapBlockIndex h = some ci)
    (hval : ValidateSyncCheckpoint env s h = (true, s))
    (hw : env.writeOk h = true) :
    (m.ProcessSyncCheckpoint env s =
      some (true,
        { s with hashSyncCheckpoint := h, hashPendingCheckpoint := 0,
                 checkpointMessage := { m with hashCheckpoint := h },
                 checkpointMessagePending := CSyncCheckpoint.null },
        { m with hashCheckpoint := h })) ∧
    (chainContains env ci = true →
      CSyncCheckpoint.ProcessSyncCheckpoint { m with hashCheckpoint := h } env
        { s with hashSyncCheckpoint := h, hashPendingCheckpoint := 0,
                 checkpointMessage := { m with hashCheckpoint := h },
                 checkpointMessagePending := CSyncCheckpoint.null } =
      some (false,
        { s with hashSyncCheckpoint := h, hashPendingCheckpoint := 0,
                 checkpointMessage := { m with hashCheckpoint := h },
                 checkpointMessagePending := CSyncCheckpoint.null },
        { m with hashCheckpoint := h })) ∧
    (chainContains env ci = false →
      CSyncCheckpoint.ProcessSyncCheckpoint { m with hashCheckpoint := h } env
        { s with hashSyncCheckpoint := h, hashPendingCheckpoint := 0,
                 checkpointMessage := { m with hashCheckpoint := h },
                 checkpointMessagePending := CSyncCheckpoint.null } =
      some (false,
        { s with hashSyncCheckpoint := h, hashPendingCheckpoint := 0,
                 hashInvalidCheckpoint := h,
                 checkpointMessage := { m with hashCheckpoint := h },
                 checkpointMessagePending := CSyncCheckpoint.null },
        { m with hashCheckpoint := h })) := by
  refine ⟨?_, ?_, ?_⟩
  · unfold CSyncCheckpoint.ProcessSyncCheckpoint CSyncCheckpoint.CheckSignature
    simp [hsig, hparse, hmap, hval, WriteSyncCheckpoint, hw]
  · intro hc
    unfold CSyncCheckpoint.ProcessSyncCheckpoint CSyncCheckpoint.CheckSignature
      ValidateSyncCheckpoint
    simp [hsig, hparse, hmap, hc]
  · intro hc
    unfold CSyncCheckpoint.ProcessSyncCheckpoint CSyncCheckpoint.CheckSignature
      ValidateSyncCheckpoint
    simp [hsig, hparse, hmap, hc]

/-- C9 witness: the on-chain block 102: reprocessing after the first
success is a strict no-op. -/
theorem c9_reprocess_witness :
    msg102.ProcessSyncCheckpoint env0 s100 =
      some (true,
        { s100 with hashSyncCheckpoint := 102, hashPendingCheckpoint := 0,
                    checkpointMessage := { msg102 with hashCheckpoint := 102 },
                    checkpointMessagePending := CSyncCheckpoint.null },
        { msg102 with hashCheckpoint := 102 }) ∧
    CSyncCheckpoint.ProcessSyncCheckpoint { msg102 with hashCheckpoint := 102 } env0
        { s100 with hashSyncCheckpoint := 102, hashPendingCheckpoint := 0,
                    checkpointMessage := { msg102 with hashCheckpoint := 102 },
                    checkpointMessagePending := CSyncCheckpoint.null } =
      some (false,
        { s100 with hashSyncCheckpoint := 102, hashPendingCheckpoint := 0,
                    checkpointMessage := { msg102 with hashCheckpoint := 102 },
                    checkpointMessagePending := CSyncCheckpoint.null },
        { msg102 with hashCheckpoint := 102 }) :=
  ⟨(c9_reprocess env0 s100 msg102 102 b2Block rfl rfl rfl (by decide) rfl).1,
   (c9_reprocess env0 s100 msg102 102 b2Block rfl rfl rfl (by decide) rfl).2.1
     (by decide)⟩

/-- C10: the direct path promotes a signature-valid candidate whose
block is in the index on the strength of `ValidateSyncCheckpoint`
alone, with no canonical-chain requirement on the candidate block,
while `AcceptPendingSyncCheckpoint` additionally requires the pending
block to be contained in the canonical chain and, when that extra
check fails, returns false leaving the pending entry set and the state
unchanged. -/
theorem c10_direct_vs_pending :
    (∀ (env : Env) (s : CheckpointState) (m : CSyncCheckpoint) (h : Hash)
       (ci : CBlockIndex),
       env.verifySig m.vchMsg m.vchSig = true →
       env.parseMsg m.vchMsg = some h →
       env.mapBlockIndex h = some ci →
       ValidateSyncCheckpoint env s h = (true, s) →
       env.writeOk h = true →
       m.ProcessSyncCheckpoint env s =
         some (true,
           { s with hashSyncCheckpoint := h, hashPendingCheckpoint := 0,
                    checkpointMessage := { m with hashCheckpoint := h },
                    checkpointMessagePending := CSyncCheckpoint.null },
           { m with hashCheckpoint := h })) ∧
    (∀ (env : Env) (s : CheckpointState) (ci : CBlockIndex),
       s.hashPendingCheckpoint ≠ 0 →
       env.mapBlockIndex s.hashPendingCheckpoint = some ci →
       ValidateSyncCheckpoint env s s.hashPendingCheckpoint = (true, s) →
       chainContains env ci = false →
       AcceptPendingSyncCheckpoint env s = (false, s)) := by
  constructor
  · intro env s m h ci hsig hparse hmap hval hw
    unfold CSyncCheckpoint.ProcessSyncCheckpoint CSyncCheckpoint.CheckSignature
    simp [hsig, hparse, hmap, hval, WriteSyncCheckpoint, hw]
  · intro env s ci hpend hmap hval hc
    unfold AcceptPendingSyncCheckpoint
    simp [hpend, hmap, hval, hc]

/-- C10 witness: the direct path accepts the off-chain fork block 201
(no canonical-chain check), while the pending path rejects the same
block and leaves the pending entry set. -/
theorem c10_direct_vs_pending_witness :
    chainContains env0 f1Block = false ∧
    msg201.ProcessSyncCheckpoint env0 s100 =
      some (true,
        { s100 with hashSyncCheckpoint := 201, hashPendingCheckpoint := 0,
                    checkpointMessage := { msg201 with hashCheckpoint := 201 },
                    checkpointMessagePending := CSyncCheckpoint.null },
        { msg201 with hashCheckpoint := 201 }) ∧
    AcceptPendingSyncCheckpoint env0 sPend201 = (false, sPend201) :=
  ⟨by decide,
   c10_direct_vs_pending.1 env0 s100 msg201 201 f1Block rfl rfl rfl (by decide) rfl,
   c10_direct_vs_pending.2 env0 sPend201 f1Block (by decide) (by decide) (by decide)
     (by decide)⟩
